import Mathlib

set_option maxRecDepth 8000
set_option maxHeartbeats 1000000

/-!
Shallow embedding of `devicemodel/hw/pci/ivshmem.c`, the ACRN device-model
emulation of an ivshmem-v1 inter-VM shared-memory PCI device.

The register-file emulator (`pci_ivshmem_read` / `pci_ivshmem_write`) is pure
and embedded directly.  The shared-memory region manager
(`create_shared_memory`) and the lifecycle operations (`pci_ivshmem_init` /
`pci_ivshmem_deinit`) interact with the operating system; the outcomes of the
system calls they issue (shm_open, ftruncate, fstat, mmap, vm_map_memseg_vma,
strdup, calloc) are supplied by an environment record `ShmEnv` / `InitEnv`,
and the resource actions the code performs (opening and closing descriptors,
mapping and unmapping, unlinking) are recorded in an event trace `SysEvent`
so that cleanup behaviour can be stated.  File descriptors are `Int`
(negative means the call failed, as in POSIX); a mapping address of `0`
models the null pointer.
-/

/-- BAR index of the 0x100-byte MMIO register window (`IVSHMEM_MMIO_BAR`). -/
def IVSHMEM_MMIO_BAR : Nat := 0

/-- BAR index of the shared-memory window (`IVSHMEM_MEM_BAR`). -/
def IVSHMEM_MEM_BAR : Nat := 2

/-- Size of the register BAR (`IVSHMEM_REG_SIZE`). -/
def IVSHMEM_REG_SIZE : Nat := 0x100

/-- Offset of the interrupt-mask register (`IVSHMEM_IRQ_MASK_REG`). -/
def IVSHMEM_IRQ_MASK_REG : Nat := 0x00

/-- Offset of the interrupt-status register (`IVSHMEM_IRQ_STA_REG`). -/
def IVSHMEM_IRQ_STA_REG : Nat := 0x04

/-- Offset of the IVPosition register (`IVSHMEM_IV_POS_REG`). -/
def IVSHMEM_IV_POS_REG : Nat := 0x08

/-- Offset of the doorbell register (`IVSHMEM_DOORBELL_REG`). -/
def IVSHMEM_DOORBELL_REG : Nat := 0x0c

/-- The all-ones 64-bit value, `~0` assigned to a `uint64_t`. -/
def allOnes64 : Nat := 2 ^ 64 - 1

/-- Device-private state `struct pci_ivshmem_vdev`.  The `dev` back-pointer is
not modelled; `name` is `none` while the field is still the null pointer from
`calloc`; `addr = 0` models a null mapping address. -/
structure pci_ivshmem_vdev where
  name : Option String
  fd : Int
  addr : Nat
  size : Nat
deriving DecidableEq

/-- Resource-affecting system calls issued by the region manager and the
lifecycle code, recorded as an event trace. -/
inductive SysEvent where
  | openedFd (fd : Int)
  | closedFd (fd : Int)
  | ftruncated (fd : Int) (size : Nat)
  | mapped (addr size : Nat)
  | unmapped (addr size : Nat)
  | vmMapped (size bar_addr addr : Nat)
  | unlinked (name : String)
deriving DecidableEq

/-- Outcomes of the system calls `create_shared_memory` issues, supplied as an
oracle: `openExcl` is the return of `shm_open(name, O_CREAT|O_EXCL|O_RDWR)`
(negative = failure), `exclErrnoEExist` says whether a failed exclusive open
set `errno = EEXIST`, `openPlain` is the return of the fallback
`shm_open(name, O_RDWR)`, `fstat` is `none` when `fstat` fails and otherwise
the observed `st_size`, `mmapAddr` is the address returned by `mmap`
(0 = NULL), `vmMapOk` is whether `vm_map_memseg_vma` returned ≥ 0, and
`strdupOk` is whether `strdup(name)` succeeded. -/
structure ShmEnv where
  openExcl : Int
  exclErrnoEExist : Bool
  openPlain : Int
  ftruncateOk : Bool
  fstat : Option Int
  mmapAddr : Nat
  vmMapOk : Bool
  strdupOk : Bool
deriving DecidableEq

/-- The `err:` label of `create_shared_memory` (ivshmem.c:125–130):
`if (addr) munmap(addr, size); if (fd > 0) close(fd);`. -/
def csmCleanup (fd : Int) (addr size : Nat) : List SysEvent :=
  (if addr ≠ 0 then [SysEvent.unmapped addr size] else []) ++
    (if 0 < fd then [SysEvent.closedFd fd] else [])

/-- The descriptor held in `fd` after lines 82–86 of `create_shared_memory`:
the exclusive create's result, replaced by the fallback open's result when
the exclusive create failed with `errno == EEXIST`. -/
def csmFd (env : ShmEnv) : Int :=
  if env.openExcl < 0 ∧ env.exclErrnoEExist then env.openPlain else env.openExcl

/-- The open events of lines 82–86: the exclusive `shm_open` when it
succeeded, and the fallback `shm_open` when it was attempted and
succeeded. -/
def csmOpenEv (env : ShmEnv) : List SysEvent :=
  (if 0 ≤ env.openExcl then [SysEvent.openedFd env.openExcl] else []) ++
    (if env.openExcl < 0 ∧ env.exclErrnoEExist ∧ 0 ≤ env.openPlain then
      [SysEvent.openedFd env.openPlain] else [])

/-- Lines 93–124 of `create_shared_memory` — everything after the `fd < 0`
check, given the creator flag and the descriptor: `ftruncate` on the creator
path, `fstat` size check on the joiner path, `mmap` (null-checked),
`vm_map_memseg_vma`, `strdup`, with the shared `err:` cleanup block on every
failure. -/
def csmBody (env : ShmEnv) (name : String) (size bar_addr : Nat)
    (is_shm_creator : Bool) (fd : Int) :
    Option pci_ivshmem_vdev × List SysEvent :=
  if is_shm_creator ∧ ¬env.ftruncateOk then (none, csmCleanup fd 0 size)
  else if ¬is_shm_creator ∧ ¬(env.fstat = some (size : Int)) then
    (none, csmCleanup fd 0 size)
  else
    let ev2 := if is_shm_creator then [SysEvent.ftruncated fd size] else []
    let addr := env.mmapAddr
    let ev3 := ev2 ++ (if addr ≠ 0 then [SysEvent.mapped addr size] else [])
    if addr = 0 ∨ ¬env.vmMapOk then (none, ev3 ++ csmCleanup fd addr size)
    else
      let ev4 := ev3 ++ [SysEvent.vmMapped size bar_addr addr]
      if ¬env.strdupOk then (none, ev4 ++ csmCleanup fd addr size)
      else (some ⟨some name, fd, addr, size⟩, ev4)

/-- `create_shared_memory` (ivshmem.c:73–131).  Returns the filled-in vdev
fields (`none` models the `-1` return) together with the trace of resource
actions.  Control flow mirrors the C exactly: exclusive create, creator flag
set only when the returned descriptor is strictly positive, fallback open on
`EEXIST`, bail out through `err:` when `fd < 0`, then the body `csmBody`. -/
def create_shared_memory (env : ShmEnv) (name : String) (size : Nat)
    (bar_addr : Nat) : Option pci_ivshmem_vdev × List SysEvent :=
  let is_shm_creator := decide (0 < env.openExcl)
  let fd := csmFd env
  if fd < 0 then (none, csmOpenEv env ++ csmCleanup fd 0 size)
  else
    let r := csmBody env name size bar_addr is_shm_creator fd
    (r.1, csmOpenEv env ++ r.2)

/-- Log lines emitted by the register-file emulator: the unconditional entry
`pr_dbg` of `pci_ivshmem_write`, the doorbell `pr_warn`, and the
invalid-register `pr_dbg` of the `default:` arm. -/
inductive LogEvent where
  | dbgEntry (baridx offset value : Nat)
  | doorbellWarn (vectors peer_id : Nat)
  | invalidRegDbg (offset : Nat)
deriving DecidableEq

/-- `pci_ivshmem_write` (ivshmem.c:133–159).  The function never touches the
device state: it returns it unchanged together with the log lines it emits.
The doorbell arm logs `value & 0xff` as the vectors and
`(value >> 16) & 0xff` as the peer id. -/
def pci_ivshmem_write (dev : Option pci_ivshmem_vdev)
    (baridx offset _sz value : Nat) :
    Option pci_ivshmem_vdev × List LogEvent :=
  (dev,
    LogEvent.dbgEntry baridx offset value ::
      (if baridx = IVSHMEM_MMIO_BAR then
        if offset = IVSHMEM_IRQ_MASK_REG ∨ offset = IVSHMEM_IRQ_STA_REG then []
        else if offset = IVSHMEM_DOORBELL_REG then
          [LogEvent.doorbellWarn (value % 256) (value / 65536 % 256)]
        else [LogEvent.invalidRegDbg offset]
      else []))

/-- The value of `val` in `pci_ivshmem_read` before the width switch:
initialised to `~0`, set to 0 for the mask, status and position registers of
the MMIO BAR, untouched otherwise. -/
def regReadRaw (baridx offset : Nat) : Nat :=
  if baridx = IVSHMEM_MMIO_BAR then
    if offset = IVSHMEM_IRQ_MASK_REG ∨ offset = IVSHMEM_IRQ_STA_REG then 0
    else if offset = IVSHMEM_IV_POS_REG then 0
    else allOnes64
  else allOnes64

/-- The width switch at the end of `pci_ivshmem_read`: masks to 8/16/32 bits
for sizes 1/2/4 and leaves the value untouched for any other size. -/
def maskBySize (sz val : Nat) : Nat :=
  if sz = 1 then val % 256
  else if sz = 2 then val % 65536
  else if sz = 4 then val % 4294967296
  else val

/-- `pci_ivshmem_read` (ivshmem.c:161–207).  Pure: the device argument is
never consulted (the C body only reads its parameters), and no state is
modified. -/
def pci_ivshmem_read (_dev : Option pci_ivshmem_vdev)
    (baridx offset sz : Nat) : Nat :=
  maskBySize sz (regReadRaw baridx offset)

/-- Apply a sequence of guest writes `(baridx, offset, size, value)` to the
device state, threading the state returned by `pci_ivshmem_write`. -/
def applyWrites (dev : Option pci_ivshmem_vdev)
    (ws : List (Nat × Nat × Nat × Nat)) : Option pci_ivshmem_vdev :=
  ws.foldl (fun s w => (pci_ivshmem_write s w.1 w.2.1 w.2.2.1 w.2.2.2).1) dev

/-- `pci_ivshmem_deinit` (ivshmem.c:281–306).  Takes `dev->arg` and returns
the new `dev->arg` (always null afterwards, or unchanged null if it already
was) and the trace of release actions: `munmap` when `addr` and `size` are
nonzero, `close` when `fd > 0`, and `shm_unlink` whenever `name` is set —
the code performs the unlink for every vdev that holds a name, with no test
of how the backing object was opened. -/
def pci_ivshmem_deinit (arg : Option pci_ivshmem_vdev) :
    Option pci_ivshmem_vdev × List SysEvent :=
  match arg with
  | none => (none, [])
  | some vdev =>
    (none,
      (if vdev.addr ≠ 0 ∧ vdev.size ≠ 0 then
        [SysEvent.unmapped vdev.addr vdev.size] else []) ++
        (if 0 < vdev.fd then [SysEvent.closedFd vdev.fd] else []) ++
        (match vdev.name with
         | some n => [SysEvent.unlinked n]
         | none => []))

/-- `strsep(&tmp, ",")` on the character list of the option string: returns
the run before the first comma together with the remainder (`none` models
`tmp == NULL` when no comma is found). -/
def strsepCommaAux : List Char → List Char × Option (List Char)
  | [] => ([], none)
  | c :: cs =>
    if c = ',' then ([], some cs)
    else
      let r := strsepCommaAux cs
      (c :: r.1, r.2)

/-- `name = strsep(&tmp, ",")` applied to the duplicated option string.
`strsep` never returns null for a non-null input, so the name component is a
plain `String` (possibly empty); the remainder is `none` exactly when the
string contains no comma. -/
def strsepComma (s : String) : String × Option String :=
  let r := strsepCommaAux s.data
  (⟨r.1⟩, r.2.map fun l => ⟨l⟩)

/-- Modelled from the spec: `dm_strtoui` (declared in `dm_string.h`, defined
outside `src/`) is the shared numeric parser used for the shared-memory size;
per the spec it parses the field as a decimal integer and fails when the
field is absent or does not parse.  `none` input models the null `tmp`
pointer left by `strsep` when the option string has no comma. -/
def dm_strtoui (s : Option String) : Option Nat :=
  match s with
  | none => none
  | some str =>
    let ds := str.data.takeWhile fun c => c.isDigit
    if ds.isEmpty then none
    else some (ds.foldl (fun a c => 10 * a + (c.toNat - 48)) 0)

/-- Outcomes of the calls `pci_ivshmem_init` makes beyond the region manager:
`strdupOptsOk` for `strdup(opts)`, `callocOk` for the vdev allocation,
`barAddr` for the guest physical base address read back from the memory BAR
after allocation, and `shm` for the system calls of `create_shared_memory`. -/
structure InitEnv where
  strdupOptsOk : Bool
  callocOk : Bool
  barAddr : Nat
  shm : ShmEnv
deriving DecidableEq

/-- Observable outcome of `pci_ivshmem_init`: the C return value, the final
`dev->arg`, the trace of region-manager actions, and whether the BAR
allocations and config-space identity writes were performed. -/
structure InitResult where
  ret : Int
  devArg : Option pci_ivshmem_vdev
  events : List SysEvent
  barsAllocated : Bool
  cfgWritten : Bool
deriving DecidableEq

/-- `pci_ivshmem_init` (ivshmem.c:209–279).  Mirrors the C: duplicate the
option string, split at the first comma (the `if (!name)` test cannot fire
since `strsep` never returns null there), parse the size with `dm_strtoui`,
check `size < 4096 || size > 128*1024*1024 || (size & (size-1)) != 0`,
allocate the vdev, write config identity, allocate both BARs, and call
`create_shared_memory`; on a region-manager failure the already-performed
config writes and BAR allocations are not rolled back, but the vdev is freed
and `dev->arg` reset to null. -/
def pci_ivshmem_init (env : InitEnv) (opts : String) : InitResult :=
  if ¬env.strdupOptsOk then ⟨-1, none, [], false, false⟩
  else
    let p := strsepComma opts
    let name := p.1
    let tmp := p.2
    match dm_strtoui tmp with
    | none => ⟨-1, none, [], false, false⟩
    | some size =>
      if size < 4096 ∨ 128 * 1024 * 1024 < size ∨ size.land (size - 1) ≠ 0 then
        ⟨-1, none, [], false, false⟩
      else if ¬env.callocOk then ⟨-1, none, [], false, false⟩
      else
        let r := create_shared_memory env.shm name size env.barAddr
        match r.1 with
        | none => ⟨-1, none, r.2, true, true⟩
        | some v => ⟨0, some v, r.2, true, true⟩

/-- Environment in which every system call succeeds and the exclusive create
wins (creator path), with descriptor 3 and mapping address 0x7000. -/
def creatorOkEnv : ShmEnv :=
  { openExcl := 3, exclErrnoEExist := false, openPlain := -1,
    ftruncateOk := true, fstat := none, mmapAddr := 0x7000,
    vmMapOk := true, strdupOk := true }

/-- Environment taking the joiner path (exclusive create fails with `EEXIST`,
plain open returns descriptor 3) with an existing object of size 4096 and
all later calls succeeding. -/
def joinerOkEnv : ShmEnv :=
  { openExcl := -1, exclErrnoEExist := true, openPlain := 3,
    ftruncateOk := true, fstat := some 4096, mmapAddr := 0x7000,
    vmMapOk := true, strdupOk := true }

/-- Joiner-path environment in which the existing object has size 8192. -/
def joinerMismatchEnv : ShmEnv :=
  { openExcl := -1, exclErrnoEExist := true, openPlain := 3,
    ftruncateOk := true, fstat := some 8192, mmapAddr := 0x7000,
    vmMapOk := true, strdupOk := true }

/-- Creator-path environment in which `vm_map_memseg_vma` fails after a
successful `mmap`. -/
def vmMapFailEnv : ShmEnv :=
  { openExcl := 3, exclErrnoEExist := false, openPlain := -1,
    ftruncateOk := true, fstat := none, mmapAddr := 0x7000,
    vmMapOk := false, strdupOk := true }

/-- Init-level environment in which everything succeeds (creator path). -/
def initOkEnv : InitEnv :=
  { strdupOptsOk := true, callocOk := true, barAddr := 0x100000000,
    shm := creatorOkEnv }

/-- The name component used in concrete scenarios. -/
def shm0 : String := "shm0"

/-- Option string with an empty name component. -/
def optsEmptyName : String := ",4096"

/-- Option string with a size that is not a power of two. -/
def optsBadSize : String := "shm0,5000"

/-- C6: a read of the register BAR at offset 0x00 (IRQ mask), 0x04 (IRQ
status) or 0x08 (IV position) with access width 1, 2 or 4 returns 0, after
any sequence of prior writes: writes never modify the device state, and the
read of those offsets yields `val = 0` before masking, so the masked result
is 0 no matter what was written before. -/
theorem reg_read_defined_offsets_zero (dev : Option pci_ivshmem_vdev)
    (ws : List (Nat × Nat × Nat × Nat)) (offset sz : Nat)
    (ho : offset = IVSHMEM_IRQ_MASK_REG ∨ offset = IVSHMEM_IRQ_STA_REG ∨
      offset = IVSHMEM_IV_POS_REG)
    (hs : sz = 1 ∨ sz = 2 ∨ sz = 4) :
    pci_ivshmem_read (applyWrites dev ws) IVSHMEM_MMIO_BAR offset sz = 0 := by
  rcases ho with h | h | h <;> rcases hs with h2 | h2 | h2 <;>
    simp [pci_ivshmem_read, regReadRaw, maskBySize, h, h2,
      IVSHMEM_IRQ_MASK_REG, IVSHMEM_IRQ_STA_REG, IVSHMEM_IV_POS_REG,
      IVSHMEM_MMIO_BAR]

/-- Witness for `reg_read_defined_offsets_zero`: after a doorbell write, a
2-byte read of the status register returns 0. -/
theorem reg_read_defined_offsets_zero_witness :
    pci_ivshmem_read (applyWrites none [(0, 12, 4, 0xdeadbeef)])
      IVSHMEM_MMIO_BAR 0x04 2 = 0 :=
  reg_read_defined_offsets_zero none [(0, 12, 4, 0xdeadbeef)] 0x04 2
    (by decide) (by decide)

/-- C7: a read of the register BAR at any offset other than 0x00, 0x04 and
0x08 returns the all-ones value masked to the access width (0xFF, 0xFFFF or
0xFFFFFFFF for widths 1, 2, 4), is total (never faults) and, the read
function being pure, has no side effect on any state. -/
theorem reg_read_reserved_all_ones (dev : Option pci_ivshmem_vdev)
    (offset sz : Nat)
    (ho : ¬(offset = IVSHMEM_IRQ_MASK_REG ∨ offset = IVSHMEM_IRQ_STA_REG ∨
      offset = IVSHMEM_IV_POS_REG))
    (hs : sz = 1 ∨ sz = 2 ∨ sz = 4) :
    pci_ivshmem_read dev IVSHMEM_MMIO_BAR offset sz =
      (if sz = 1 then 0xFF else if sz = 2 then 0xFFFF else 0xFFFFFFFF) := by
  push_neg at ho
  obtain ⟨h0, h4, h8⟩ := ho
  simp only [IVSHMEM_IRQ_MASK_REG, IVSHMEM_IRQ_STA_REG,
    IVSHMEM_IV_POS_REG] at h0 h4 h8
  rcases hs with h2 | h2 | h2 <;>
    simp [pci_ivshmem_read, regReadRaw, maskBySize, h0, h4, h8, h2,
      IVSHMEM_IRQ_MASK_REG, IVSHMEM_IRQ_STA_REG, IVSHMEM_IV_POS_REG,
      IVSHMEM_MMIO_BAR, allOnes64]

/-- Witness for `reg_read_reserved_all_ones`: a 2-byte read at reserved
offset 0x20 returns 0xFFFF. -/
theorem reg_read_reserved_all_ones_witness :
    pci_ivshmem_read none IVSHMEM_MMIO_BAR 0x20 2 = 0xFFFF :=
  reg_read_reserved_all_ones none 0x20 2 (by decide) (by decide)

/-- C3 counterexample: the claim decodes the peer identifier from bits 8–15
of the written value, but the code logs `(value >> 16) & 0xff`.  For the
doorbell write of value 65536 (bit 16 set) the code logs peer id 1, while
the byte at bits 8–15 of 65536 is 0. -/
theorem doorbell_peer_id_not_bits_8_15 :
    LogEvent.doorbellWarn 0 1 ∈
      (pci_ivshmem_write none IVSHMEM_MMIO_BAR IVSHMEM_DOORBELL_REG 4
        65536).2 ∧
    65536 / 256 % 256 = 0 ∧ (1 : Nat) ≠ 0 := by
  decide

/-- C3 as amended: a write to the doorbell register offset 0x0C is decoded
as low byte (bits 0–7) = vector number and bits 16–23 = peer identifier; the
write only produces log lines (the entry debug line and the
capability-not-supported warning), leaves the device state unchanged, and is
never forwarded anywhere. -/
theorem doorbell_write_logged_only (dev : Option pci_ivshmem_vdev)
    (sz value : Nat) :
    pci_ivshmem_write dev IVSHMEM_MMIO_BAR IVSHMEM_DOORBELL_REG sz value =
      (dev, [LogEvent.dbgEntry IVSHMEM_MMIO_BAR IVSHMEM_DOORBELL_REG value,
        LogEvent.doorbellWarn (value % 256) (value / 65536 % 256)]) := by
  simp [pci_ivshmem_write, IVSHMEM_MMIO_BAR, IVSHMEM_DOORBELL_REG,
    IVSHMEM_IRQ_MASK_REG, IVSHMEM_IRQ_STA_REG]

/-- C9: an access dispatched with a BAR index other than the register BAR
(index 0) never decodes the offset: a read returns the all-ones value put
through the width mask whatever the offset is, and a write changes no state
and emits only the unconditional entry debug line — no register-decode log
(no doorbell warning and no invalid-register line). -/
theorem non_mmio_bar_access (dev : Option pci_ivshmem_vdev)
    (baridx offset offset' sz value : Nat) (hb : baridx ≠ IVSHMEM_MMIO_BAR) :
    pci_ivshmem_read dev baridx offset sz =
      pci_ivshmem_read dev baridx offset' sz ∧
    pci_ivshmem_read dev baridx offset sz = maskBySize sz allOnes64 ∧
    pci_ivshmem_write dev baridx offset sz value =
      (dev, [LogEvent.dbgEntry baridx offset value]) := by
  refine ⟨?_, ?_, ?_⟩ <;>
    simp [pci_ivshmem_read, pci_ivshmem_write, regReadRaw, hb]

/-- Witness for `non_mmio_bar_access`: a 4-byte read anywhere in BAR 2
returns 0xFFFFFFFF and a write there only logs its entry line. -/
theorem non_mmio_bar_access_witness :
    pci_ivshmem_read none 2 0x08 4 = pci_ivshmem_read none 2 0x40 4 ∧
    pci_ivshmem_read none 2 0x08 4 = maskBySize 4 allOnes64 ∧
    pci_ivshmem_write none 2 0x08 4 7 =
      (none, [LogEvent.dbgEntry 2 0x08 7]) :=
  non_mmio_bar_access none 2 0x08 0x40 4 7 (by decide)

/-- C10: a read with an access width other than 1, 2 or 4 falls through the
width switch unmasked: the returned value is exactly the pre-mask register
value, and at any offset that is not one of the three defined registers of
the register BAR an 8-byte read returns the full 64-bit all-ones value
18446744073709551615. -/
theorem read_width_unmasked (dev : Option pci_ivshmem_vdev)
    (baridx offset sz : Nat) (h1 : sz ≠ 1) (h2 : sz ≠ 2) (h4 : sz ≠ 4) :
    pci_ivshmem_read dev baridx offset sz = regReadRaw baridx offset ∧
    (¬(baridx = IVSHMEM_MMIO_BAR ∧ (offset = IVSHMEM_IRQ_MASK_REG ∨
        offset = IVSHMEM_IRQ_STA_REG ∨ offset = IVSHMEM_IV_POS_REG)) →
      pci_ivshmem_read dev baridx offset sz = 2 ^ 64 - 1) := by
  have hm : pci_ivshmem_read dev baridx offset sz = regReadRaw baridx offset := by
    simp [pci_ivshmem_read, maskBySize, h1, h2, h4]
  refine ⟨hm, fun hnot => ?_⟩
  rw [hm]
  unfold regReadRaw
  by_cases hb : baridx = IVSHMEM_MMIO_BAR
  · push_neg at hnot
    obtain ⟨h0, ha, h8⟩ := hnot hb
    simp [hb, h0, ha, h8, allOnes64]
  · simp [hb, allOnes64]

/-- Witness for `read_width_unmasked`: an 8-byte read at reserved offset
0x20 of the register BAR returns 0xFFFFFFFFFFFFFFFF. -/
theorem read_width_unmasked_witness :
    pci_ivshmem_read none IVSHMEM_MMIO_BAR 0x20 8 = 2 ^ 64 - 1 :=
  (read_width_unmasked none IVSHMEM_MMIO_BAR 0x20 8 (by decide) (by decide)
    (by decide)).2 (by decide)

/-- C8: deinit always succeeds and is idempotent.  The first call clears the
device-associated state (`dev->arg` becomes null), and invoking
`pci_ivshmem_deinit` again on the cleared state is a no-op that performs no
release actions (empty event trace, state still null). -/
theorem pci_ivshmem_deinit_idempotent (arg : Option pci_ivshmem_vdev) :
    (pci_ivshmem_deinit arg).1 = none ∧
    pci_ivshmem_deinit (pci_ivshmem_deinit arg).1 = (none, []) := by
  cases arg <;> simp [pci_ivshmem_deinit]

/-- C2 counterexample: a Region acquired on the joiner path (the exclusive
create failed with `EEXIST`, so this device instance is not the creator of
the named object) still has its name unlinked by deinit — the code unlinks
whenever `vdev->name` is set, never consulting how the object was opened. -/
theorem deinit_unlinks_for_joiner :
    joinerOkEnv.openExcl < 0 ∧ joinerOkEnv.exclErrnoEExist = true ∧
    (create_shared_memory joinerOkEnv shm0 4096 0).1 =
      some ⟨some shm0, 3, 0x7000, 4096⟩ ∧
    SysEvent.unlinked shm0 ∈
      (pci_ivshmem_deinit (some ⟨some shm0, 3, 0x7000, 4096⟩)).2 := by
  decide

/-- C2 as amended: for every Region released at detach, the process mapping
is unmapped (when address and size are nonzero), the backing-store handle is
closed (when positive), and the backing object's name is unlinked whenever
the Region holds a name — for creator and joiner alike, since the creator
role is never recorded in the Region. -/
theorem pci_ivshmem_deinit_releases_region (v : pci_ivshmem_vdev) (n : String)
    (hn : v.name = some n) (ha : v.addr ≠ 0) (hs : v.size ≠ 0)
    (hf : 0 < v.fd) :
    pci_ivshmem_deinit (some v) =
      (none, [SysEvent.unmapped v.addr v.size, SysEvent.closedFd v.fd,
        SysEvent.unlinked n]) := by
  simp [pci_ivshmem_deinit, hn, ha, hs, hf]

/-- Witness for `pci_ivshmem_deinit_releases_region`: releasing the Region
acquired in `joinerOkEnv` unmaps, closes descriptor 3 and unlinks the name. -/
theorem pci_ivshmem_deinit_releases_region_witness :
    pci_ivshmem_deinit (some ⟨some shm0, 3, 0x7000, 4096⟩) =
      (none, [SysEvent.unmapped 0x7000 4096, SysEvent.closedFd 3,
        SysEvent.unlinked shm0]) :=
  pci_ivshmem_deinit_releases_region ⟨some shm0, 3, 0x7000, 4096⟩ shm0
    (by decide) (by decide) (by decide) (by decide)

/-- C5: on the joiner path (exclusive create failed with `EEXIST`, fallback
open succeeded) the existing object's size is inspected and any result other
than exactly the requested size — including a failed `fstat` — makes the
acquire fail with no Region; on the creator path the object is resized by
`ftruncate(fd, size)` to exactly the requested size, and a resize failure is
fatal to the acquire call. -/
theorem create_shared_memory_size_checks (env : ShmEnv) (name : String)
    (size bar_addr : Nat) :
    (env.openExcl < 0 → env.exclErrnoEExist = true → 0 ≤ env.openPlain →
      ¬(env.fstat = some (size : Int)) →
      (create_shared_memory env name size bar_addr).1 = none) ∧
    (0 < env.openExcl → env.ftruncateOk = false →
      (create_shared_memory env name size bar_addr).1 = none) ∧
    (0 < env.openExcl → env.ftruncateOk = true →
      SysEvent.ftruncated env.openExcl size ∈
        (create_shared_memory env name size bar_addr).2) := by
  refine ⟨fun hex hee hpl hst => ?_, fun hex hft => ?_, fun hex hft => ?_⟩ <;>
    simp only [create_shared_memory, csmFd, csmOpenEv, csmBody, csmCleanup] <;>
    split_ifs <;> simp_all <;> omega

/-- Witness for `create_shared_memory_size_checks`: joining an existing
object of size 8192 while requesting 4096 fails. -/
theorem create_shared_memory_size_checks_witness :
    (create_shared_memory joinerMismatchEnv shm0 4096 0).1 = none :=
  (create_shared_memory_size_checks joinerMismatchEnv shm0 4096 0).1
    (by decide) (by decide) (by decide) (by decide)

/-- C4 counterexample: an empty name is not rejected.  For the option string
",4096" the name component is the empty string (the `if (!name)` test cannot
catch it, since `strsep` returns a non-null empty string), validation
passes, and in an environment where the backing-store calls succeed the
whole initialization succeeds and keeps a device state. -/
theorem init_accepts_empty_name :
    (strsepComma optsEmptyName).1.data = [] ∧
    (pci_ivshmem_init initOkEnv optsEmptyName).ret = 0 ∧
    (pci_ivshmem_init initOkEnv optsEmptyName).devArg ≠ none := by
  decide

/-- C4 as amended: initialization fails — returning -1, retaining no device
state, performing no backing-store action, allocating no BAR and writing no
config identity — whenever the size field fails to parse as a decimal
integer (in particular when it is absent, the option string having no
comma), or the parsed size is below 4096, above 134217728, or not an exact
power of two.  Name validation only rejects a null pointer, which `strsep`
never produces, so an empty name is not rejected. -/
theorem pci_ivshmem_init_rejects_invalid_size (env : InitEnv) (opts : String)
    (h : match dm_strtoui (strsepComma opts).2 with
      | none => True
      | some size => size < 4096 ∨ 128 * 1024 * 1024 < size ∨
          size.land (size - 1) ≠ 0) :
    pci_ivshmem_init env opts = ⟨-1, none, [], false, false⟩ := by
  by_cases hs : env.strdupOptsOk
  · simp only [pci_ivshmem_init, hs, not_true, ite_false]
    cases hd : dm_strtoui (strsepComma opts).2 with
    | none => simp [hd]
    | some size =>
      rw [hd] at h
      simp only [hd]
      rw [if_pos h]
  · simp [pci_ivshmem_init, hs]

/-- Witness for `pci_ivshmem_init_rejects_invalid_size`: "shm0,5000" is
rejected because 5000 is not a power of two. -/
theorem pci_ivshmem_init_rejects_invalid_size_witness :
    pci_ivshmem_init initOkEnv optsBadSize = ⟨-1, none, [], false, false⟩ :=
  pci_ivshmem_init_rejects_invalid_size initOkEnv optsBadSize
    (show 5000 < 4096 ∨ 128 * 1024 * 1024 < 5000 ∨ Nat.land 5000 4999 ≠ 0
      by decide)

/-- Every event in `csmOpenEv` is an `openedFd` event. -/
theorem csmOpenEv_only_opened {env : ShmEnv} {e : SysEvent}
    (h : e ∈ csmOpenEv env) : ∃ f, e = SysEvent.openedFd f := by
  unfold csmOpenEv at h
  rw [List.mem_append] at h
  rcases h with h | h <;> split_ifs at h <;>
    simp only [List.mem_singleton, List.not_mem_nil] at h <;>
    exact ⟨_, h⟩

/-- An `openedFd` event in `csmOpenEv` names exactly the descriptor the code
goes on to use, and that descriptor is nonnegative. -/
theorem opened_in_csmOpenEv {env : ShmEnv} {f : Int}
    (h : SysEvent.openedFd f ∈ csmOpenEv env) :
    f = csmFd env ∧ 0 ≤ csmFd env := by
  unfold csmOpenEv at h
  unfold csmFd
  split_ifs at * <;> simp_all <;> omega

/-- When the retained descriptor is nonnegative, its open event is in the
trace. -/
theorem csmFd_mem_csmOpenEv {env : ShmEnv} (h : 0 ≤ csmFd env) :
    SysEvent.openedFd (csmFd env) ∈ csmOpenEv env := by
  unfold csmOpenEv
  unfold csmFd at *
  split_ifs at * <;> simp_all

/-- Under the no-descriptor-0 environment assumption, a nonnegative retained
descriptor is positive. -/
theorem csmFd_pos {env : ShmEnv} (h1 : env.openExcl ≠ 0)
    (h2 : env.openPlain ≠ 0) (h : 0 ≤ csmFd env) : 0 < csmFd env := by
  unfold csmFd at *
  split_ifs at * <;> omega

/-- The body after the open stage never opens a descriptor. -/
theorem csmBody_no_opened {env : ShmEnv} {name : String}
    {size bar_addr : Nat} {creator : Bool} {fd : Int} {f : Int} :
    SysEvent.openedFd f ∉ (csmBody env name size bar_addr creator fd).2 := by
  simp only [csmBody, csmCleanup]
  split_ifs <;> simp_all

/-- When the body fails with a positive descriptor, every mapping it
established is unmapped and the descriptor is closed. -/
theorem csmBody_fail {env : ShmEnv} {name : String} {size bar_addr : Nat}
    {creator : Bool} {fd : Int} (hfd : 0 < fd)
    (h : (csmBody env name size bar_addr creator fd).1 = none) :
    (∀ a s, SysEvent.mapped a s ∈ (csmBody env name size bar_addr creator fd).2 →
      SysEvent.unmapped a s ∈ (csmBody env name size bar_addr creator fd).2) ∧
    SysEvent.closedFd fd ∈ (csmBody env name size bar_addr creator fd).2 := by
  constructor
  · intro a s hmem
    simp only [csmBody, csmCleanup] at h hmem ⊢
    split_ifs at h hmem ⊢ <;> simp_all
  · simp only [csmBody, csmCleanup] at h ⊢
    split_ifs at h ⊢ <;> simp_all

/-- When the body succeeds, the returned vdev is the fully-initialised one,
its mapping was established, and nothing was closed or unmapped. -/
theorem csmBody_success {env : ShmEnv} {name : String} {size bar_addr : Nat}
    {creator : Bool} {fd : Int} {r : pci_ivshmem_vdev}
    (h : (csmBody env name size bar_addr creator fd).1 = some r) :
    r = ⟨some name, fd, env.mmapAddr, size⟩ ∧
    SysEvent.mapped env.mmapAddr size ∈
      (csmBody env name size bar_addr creator fd).2 ∧
    (∀ f, SysEvent.closedFd f ∉ (csmBody env name size bar_addr creator fd).2) ∧
    (∀ a s, SysEvent.unmapped a s ∉
      (csmBody env name size bar_addr creator fd).2) := by
  simp only [csmBody, csmCleanup] at h ⊢
  split_ifs at h ⊢ <;> simp_all

/-- C1: `create_shared_memory` unwinds all partial state on failure and
never returns a partial Region.  Under the environment assumption that a
successful `shm_open` never hands out descriptor 0 (the process keeps the
standard descriptors open; the code itself keys the creator role and the
cleanup on `fd > 0`), whenever the call fails every mapping it established
is unmapped and every descriptor it opened is closed, and whenever it
succeeds the returned vdev carries the duplicated name, its descriptor was
really opened, its address really mapped, and nothing was closed or
unmapped. -/
theorem create_shared_memory_unwinds_on_failure (env : ShmEnv)
    (name : String) (size bar_addr : Nat)
    (h1 : env.openExcl ≠ 0) (h2 : env.openPlain ≠ 0) :
    ((create_shared_memory env name size bar_addr).1 = none →
      (∀ a s, SysEvent.mapped a s ∈
          (create_shared_memory env name size bar_addr).2 →
        SysEvent.unmapped a s ∈
          (create_shared_memory env name size bar_addr).2) ∧
      (∀ f, SysEvent.openedFd f ∈
          (create_shared_memory env name size bar_addr).2 →
        SysEvent.closedFd f ∈
          (create_shared_memory env name size bar_addr).2)) ∧
    (∀ r, (create_shared_memory env name size bar_addr).1 = some r →
      r.name = some name ∧
      SysEvent.openedFd r.fd ∈
        (create_shared_memory env name size bar_addr).2 ∧
      SysEvent.mapped r.addr r.size ∈
        (create_shared_memory env name size bar_addr).2 ∧
      (∀ f, SysEvent.closedFd f ∉
        (create_shared_memory env name size bar_addr).2) ∧
      (∀ a s, SysEvent.unmapped a s ∉
        (create_shared_memory env name size bar_addr).2)) := by
  by_cases hneg : csmFd env < 0
  · have hev : create_shared_memory env name size bar_addr =
        (none, csmOpenEv env ++ csmCleanup (csmFd env) 0 size) := by
      simp only [create_shared_memory, if_pos hneg]
    have hcl : csmCleanup (csmFd env) 0 size = [] := by
      have hnp : ¬(0 < csmFd env) := by omega
      simp [csmCleanup, hnp]
    rw [hev, hcl, List.append_nil]
    refine ⟨fun _ => ⟨fun a s hmem => ?_, fun f hmem => ?_⟩, fun r hr => ?_⟩
    · obtain ⟨f, hf⟩ := csmOpenEv_only_opened hmem
      simp at hf
    · exact absurd (opened_in_csmOpenEv hmem).2 (by omega)
    · simp at hr
  · have hev : create_shared_memory env name size bar_addr =
        ((csmBody env name size bar_addr (decide (0 < env.openExcl))
            (csmFd env)).1,
          csmOpenEv env ++
            (csmBody env name size bar_addr (decide (0 < env.openExcl))
              (csmFd env)).2) := by
      simp only [create_shared_memory, if_neg hneg]
    have hfd0 : 0 ≤ csmFd env := by omega
    have hfdpos : 0 < csmFd env := csmFd_pos h1 h2 hfd0
    rw [hev]
    constructor
    · intro hres
      obtain ⟨hmapun, hclosed⟩ := csmBody_fail hfdpos hres
      constructor
      · intro a s hmem
        rw [List.mem_append] at hmem
        rcases hmem with hmem | hmem
        · obtain ⟨f, hf⟩ := csmOpenEv_only_opened hmem
          simp at hf
        · exact List.mem_append_right _ (hmapun a s hmem)
      · intro f hmem
        rw [List.mem_append] at hmem
        rcases hmem with hmem | hmem
        · obtain ⟨hf, -⟩ := opened_in_csmOpenEv hmem
          subst hf
          exact List.mem_append_right _ hclosed
        · exact absurd hmem csmBody_no_opened
    · intro r hr
      obtain ⟨hrv, hmap, hnoclose, hnounmap⟩ := csmBody_success hr
      refine ⟨by rw [hrv], ?_, ?_, fun f hmem => ?_, fun a s hmem => ?_⟩
      · have : r.fd = csmFd env := by rw [hrv]
        rw [this]
        exact List.mem_append_left _ (csmFd_mem_csmOpenEv hfd0)
      · have ha : r.addr = env.mmapAddr := by rw [hrv]
        have hs : r.size = size := by rw [hrv]
        rw [ha, hs]
        exact List.mem_append_right _ hmap
      · rw [List.mem_append] at hmem
        rcases hmem with hmem | hmem
        · obtain ⟨g, hg⟩ := csmOpenEv_only_opened hmem
          simp at hg
        · exact hnoclose f hmem
      · rw [List.mem_append] at hmem
        rcases hmem with hmem | hmem
        · obtain ⟨g, hg⟩ := csmOpenEv_only_opened hmem
          simp at hg
        · exact hnounmap a s hmem

/-- Witness for `create_shared_memory_unwinds_on_failure`: when
`vm_map_memseg_vma` fails after a successful open, resize and `mmap`, the
mapping at 0x7000 is unmapped and descriptor 3 is closed. -/
theorem create_shared_memory_unwinds_on_failure_witness :
    SysEvent.unmapped 0x7000 4096 ∈
      (create_shared_memory vmMapFailEnv shm0 4096 0).2 ∧
    SysEvent.closedFd 3 ∈ (create_shared_memory vmMapFailEnv shm0 4096 0).2 :=
  ⟨((create_shared_memory_unwinds_on_failure vmMapFailEnv shm0 4096 0
        (by decide) (by decide)).1 (by decide)).1 0x7000 4096 (by decide),
    ((create_shared_memory_unwinds_on_failure vmMapFailEnv shm0 4096 0
        (by decide) (by decide)).1 (by decide)).2 3 (by decide)⟩
